import Mathlib

/-!
Verification of the job-execution orchestrator of the
k8s-argo-monitoring-capstone repository, shallowly embedded in Lean 4.

The embedding follows the Python sources:
  - apps/automation-api/app/degraded.py   (run_jcl: fetch, chmod, run, interpret)
  - apps/automation-api/app/main.py       (run_jcl, execute_ansible_playbook,
                                           render_jinja2_variables, variable merge)
  - apps/automation-gateway/src/main.py   (job ledger, run_job, metrics)
-/

namespace K8sMon

/-! ## JSON values and Python truthiness (degraded.py, json.load result) -/

/-- Structured data parsed from a result artifact (a JSON value). -/
inductive JsonV where
  | null
  | bool (b : Bool)
  | num (n : Int)
  | str (s : String)
  | arr (xs : List JsonV)
  | obj (kvs : List (String × JsonV))

/-- Python truthiness of a JSON value: None, False, 0, empty string,
empty list and empty dict are falsy; everything else is truthy. -/
def truthy : JsonV → Bool
  | .null => false
  | .bool b => b
  | .num n => !(n == 0)
  | .str s => !(s == "")
  | .arr xs => !xs.isEmpty
  | .obj kvs => !kvs.isEmpty

/-! ## Substring search (used to state leakage and template-marker facts) -/

/-- Occurrence of a pattern in a list, checked position by position. -/
def auxContains (pat : List Char) : List Char → Bool
  | [] => pat.isEmpty
  | c :: cs => pat.isPrefixOf (c :: cs) || auxContains pat cs

/-- Substring test on strings: Python `pat in s`. -/
def strContains (s pat : String) : Bool := auxContains pat.data s.data

/-! ## Result interpretation (degraded.py lines 79 to 98) -/

/-- State of the optional result artifact jcl_result.json after the run:
absent, present but unparseable, or parsed to a JSON value. -/
inductive ParseOutcome where
  | noFile
  | parseError
  | parsed (v : JsonV)

/-- Interpreted outcome of a completed execution as built into the
response dictionary of degraded.py run_jcl. -/
structure InterpResult where
  success : Bool
  exitCode : Int
  jclResult : Option JsonV
  parseWarning : Bool

/-- Embeds degraded.py lines 79 to 98: jcl_result is the parsed artifact or
None (absent file and parse failure both leave it None, a parse failure also
logs a warning); the response sets success to returncode == 0 and splats the
jcl_result key only when the value is truthy. -/
def interpretJclResult (exitCode : Int) (res : ParseOutcome) : InterpResult :=
  let jclVar : Option JsonV :=
    match res with
    | .parsed v => some v
    | _ => none
  { success := exitCode == 0
    exitCode := exitCode
    jclResult :=
      match jclVar with
      | some v => if truthy v then some v else none
      | none => none
    parseWarning :=
      match res with
      | .parseError => true
      | _ => false }

/-! ## Process runner and run_jcl (degraded.py lines 66 to 107) -/

/-- Behaviour of the child ansible-playbook process: it either completes
with an exit code and captured output, or exceeds the timeout while having
produced some partial output. -/
inductive ProcResult where
  | completed (exitCode : Int) (stdout stderr : String)
  | timedOut (oPart ePart : String)

/-- An HTTPException raised by the endpoint: status code and detail text. -/
structure HttpError where
  status : Nat
  detail : String

/-- Success response body of degraded.py run_jcl (lines 88 to 98). -/
structure RunJclResponse where
  jobId : String
  status : String
  playbook : String
  jclFile : String
  success : Bool
  exitCode : Int
  stdout : String
  stderr : String
  jclResult : Option JsonV

/-- Embeds degraded.py run_jcl lines 66 to 107, after artifact preparation:
a completed process yields the response dictionary with success tied to the
exit code and the interpreted result artifact; subprocess.TimeoutExpired is
turned into HTTPException(408, "Playbook timed out"), discarding the
captured partial output. -/
def runJclDegraded (jobId playbookName jclFile : String) (proc : ProcResult)
    (res : ParseOutcome) : Except HttpError RunJclResponse :=
  match proc with
  | .timedOut _ _ => .error { status := 408, detail := "Playbook timed out" }
  | .completed ec out err =>
      let interp := interpretJclResult ec res
      .ok { jobId := jobId
            status := "completed"
            playbook := playbookName
            jclFile := jclFile
            success := interp.success
            exitCode := ec
            stdout := out
            stderr := err
            jclResult := interp.jclResult }

/-- Result dictionary of main.py execute_ansible_playbook (lines 201 to 207). -/
structure ExecResult where
  executionId : String
  success : Bool
  exitCode : Int
  stdout : String
  stderr : String

/-- Embeds main.py execute_ansible_playbook lines 190 to 214: a completed
process yields the result dictionary; subprocess.TimeoutExpired becomes
HTTPException(408) with a fixed detail message. -/
def executeAnsiblePlaybook (executionId : String) (proc : ProcResult) :
    Except HttpError ExecResult :=
  match proc with
  | .timedOut _ _ =>
      .error { status := 408
               detail := "Playbook execution timed out after 30 minutes" }
  | .completed ec out err =>
      .ok { executionId := executionId
            success := ec == 0
            exitCode := ec
            stdout := out
            stderr := err }

/-! ## Claim C1 -/

/-- Claim C1: for every completed execution with exit code 0 the interpreted
outcome is Success; an unparseable result artifact leaves the outcome
Success with the result recorded as null plus a non-fatal warning, and a
zero exit code is never turned into a Failure; every non-zero exit code
yields Failure irrespective of result-artifact presence. -/
theorem C1_interpret_result (ec : Int) (res : ParseOutcome) (hne : ec ≠ 0) :
    (interpretJclResult 0 res).success = true
    ∧ (interpretJclResult 0 ParseOutcome.parseError).success = true
    ∧ (interpretJclResult 0 ParseOutcome.parseError).jclResult = none
    ∧ (interpretJclResult 0 ParseOutcome.parseError).parseWarning = true
    ∧ (interpretJclResult ec res).success = false := by
  refine ⟨rfl, rfl, rfl, rfl, ?_⟩
  simp only [interpretJclResult]
  exact beq_eq_false_iff_ne.mpr hne

/-- Witness for C1 at exit codes 0 and 3. -/
theorem C1_interpret_result_witness :
    (interpretJclResult 0 ParseOutcome.parseError).success = true
    ∧ (interpretJclResult 0 ParseOutcome.parseError).jclResult = none
    ∧ (interpretJclResult 3 ParseOutcome.parseError).success = false := by
  have h := C1_interpret_result 3 ParseOutcome.parseError (by decide)
  exact ⟨h.2.1, h.2.2.1, h.2.2.2.2⟩

/-! ## Claim C2 -/

/-- Counterexample to claim C2 as stated: a run that times out having
captured partial output "PARTIAL-STDOUT-DATA" fails with a fixed
HTTPException whose payload does not contain the partial output, and the
failure value is identical to the one produced with no partial output at
all, so the ExecutionTimeout failure does not carry the partial output. -/
theorem C2_timeout_counterexample :
    runJclDegraded "j1" "create_hamlet_jcl.yml" "GENER3"
        (ProcResult.timedOut "PARTIAL-STDOUT-DATA" "PARTIAL-STDERR-DATA")
        ParseOutcome.noFile
      = Except.error { status := 408, detail := "Playbook timed out" }
    ∧ runJclDegraded "j1" "create_hamlet_jcl.yml" "GENER3"
        (ProcResult.timedOut "" "") ParseOutcome.noFile
      = runJclDegraded "j1" "create_hamlet_jcl.yml" "GENER3"
        (ProcResult.timedOut "PARTIAL-STDOUT-DATA" "PARTIAL-STDERR-DATA")
        ParseOutcome.noFile
    ∧ strContains "Playbook timed out" "PARTIAL-STDOUT-DATA" = false
    ∧ strContains "Playbook timed out" "PARTIAL-STDERR-DATA" = false := by
  refine ⟨rfl, rfl, ?_, ?_⟩ <;> decide

/-- Claim C2 amended: every invocation whose child process runs past the
configured timeout fails with ExecutionTimeout surfaced as HTTP 408 carrying
only a fixed human-readable message (the captured partial output is
discarded), and never returns a normal Success or Failure outcome. -/
theorem C2_timeout_amended (jobId playbookName jclFile executionId : String)
    (pOut pErr : String) (res : ParseOutcome) :
    runJclDegraded jobId playbookName jclFile
        (ProcResult.timedOut pOut pErr) res
      = Except.error { status := 408, detail := "Playbook timed out" }
    ∧ executeAnsiblePlaybook executionId (ProcResult.timedOut pOut pErr)
      = Except.error { status := 408
                       detail := "Playbook execution timed out after 30 minutes" } :=
  ⟨rfl, rfl⟩

/-! ## Prefix joining (degraded.py line 32, main.py lines 254 to 256) -/

/-- Python lstrip("/"): remove every leading slash. -/
def lstripSlashes (s : String) : String :=
  String.mk (s.data.dropWhile (fun c => c == '/'))

/-- Embeds degraded.py line 32: the prefix is empty when s3_prefix is falsy,
otherwise a slash is appended and leading slashes are stripped. -/
def degradedPrefix (s3Prefix : String) : String :=
  if s3Prefix = "" then "" else lstripSlashes (s3Prefix ++ "/")

/-- Key construction of degraded.py lines 40 to 41: processed prefix
interpolated directly in front of the key. -/
def degradedJoinKey (s3Prefix key : String) : String :=
  degradedPrefix s3Prefix ++ key

/-- Embeds main.py lines 254 to 256: prefix and name are concatenated and
leading slashes of the concatenation are stripped. -/
def mainJoinKey (s3Prefix name : String) : String :=
  lstripSlashes (s3Prefix ++ name)

/-- Head-is-separator test on the raw characters of a string. -/
def startsWithSlash (s : String) : Bool :=
  match s.data with
  | [] => false
  | c :: _ => c == '/'

/-! ## Claim C3 -/

/-- Counterexample to claim C3 as stated: in degraded.py, joining the
non-empty prefix "teamA/" with the key "jcl/FOO" yields "teamA//jcl/FOO",
a doubled separator, not the single-separator "teamA/jcl/FOO" the claim
requires. -/
theorem C3_join_counterexample :
    degradedJoinKey "teamA/" "jcl/FOO" = "teamA//jcl/FOO"
    ∧ (degradedJoinKey "teamA/" "jcl/FOO" == "teamA/jcl/FOO") = false := by
  exact ⟨by decide, by decide⟩

/-- Claim C3 amended: in degraded.py an empty prefix yields the key
unchanged, and a non-empty prefix that does not start with a separator is
joined as prefix ++ "/" ++ key, giving exactly one separator when the
prefix does not already end in "/" (join "teamA" "jcl/FOO" =
"teamA/jcl/FOO") but a doubled separator when it does (join "teamA/"
"jcl/FOO" = "teamA//jcl/FOO"); in main.py the join concatenates and strips
leading slashes, so join "teamA/" "jcl/FOO" = "teamA/jcl/FOO" and an empty
prefix yields the key unchanged for keys without a leading separator. -/
theorem C3_join_amended :
    (∀ k : String, degradedJoinKey "" k = k)
    ∧ (∀ p k : String, p ≠ "" → startsWithSlash p = false →
        degradedJoinKey p k = p ++ "/" ++ k)
    ∧ degradedJoinKey "teamA" "jcl/FOO" = "teamA/jcl/FOO"
    ∧ degradedJoinKey "teamA/" "jcl/FOO" = "teamA//jcl/FOO"
    ∧ mainJoinKey "teamA/" "jcl/FOO" = "teamA/jcl/FOO"
    ∧ (∀ k : String, startsWithSlash k = false → mainJoinKey "" k = k) := by
  refine ⟨?_, ?_, by decide, by decide, by decide, ?_⟩
  · intro k
    cases k with
    | mk l => rfl
  · intro p k hp hslash
    cases p with
    | mk l =>
      cases l with
      | nil => exact absurd rfl hp
      | cons c cs =>
        cases k with
        | mk m =>
          simp only [startsWithSlash] at hslash
          show String.mk (((c :: cs ++ "/".data).dropWhile (fun c => c == '/')) ++ m)
            = String.mk (c :: cs ++ "/".data ++ m)
          simp [List.dropWhile, hslash]
  · intro k hk
    cases k with
    | mk l =>
      cases l with
      | nil => rfl
      | cons c cs =>
        simp only [startsWithSlash] at hk
        show String.mk ((c :: cs).dropWhile (fun c => c == '/')) = String.mk (c :: cs)
        simp [List.dropWhile, hk]

/-- Witness for C3 amended at concrete prefixes and keys. -/
theorem C3_join_amended_witness :
    degradedJoinKey "" "jcl/FOO" = "jcl/FOO"
    ∧ degradedJoinKey "teamA" "jcl/FOO" = "teamA" ++ "/" ++ "jcl/FOO"
    ∧ mainJoinKey "" "jcl/FOO" = "jcl/FOO" := by
  have h := C3_join_amended
  exact ⟨h.1 "jcl/FOO", h.2.1 "teamA" "jcl/FOO" (by decide) (by decide),
    h.2.2.2.2.2 "jcl/FOO" (by decide)⟩

/-! ## Execution preparation trace (degraded.py lines 37 to 71) -/

/-- Observable side-effecting steps of degraded.py run_jcl while preparing
and launching an execution. -/
inductive PrepEvent where
  | downloadFile (s3Key localPath : String)
  | chmodFile (localPath : String) (mode : Nat)
  | writeInventoryFile (localPath keyFileRef : String)
  | execProcess (inventoryPath cwd : String)

/-- Local path of the fetched private key inside the scratch directory. -/
def keyPath (d : String) : String := d ++ "/mainframe_key.pem"

/-- Straight-line event trace of degraded.py run_jcl lines 37 to 71:
three downloads, the chmod of the key file, the inventory write (whose
content embeds the key path), and the ansible-playbook invocation. -/
def runJclPrepTrace (d playbookName jclFile s3Prefix : String) : List PrepEvent :=
  [ PrepEvent.downloadFile
      (degradedJoinKey s3Prefix ("ansible/playbooks/" ++ playbookName))
      (d ++ "/" ++ playbookName)
  , PrepEvent.downloadFile
      (degradedJoinKey s3Prefix ("ansible/jcl/" ++ jclFile))
      (d ++ "/" ++ jclFile)
  , PrepEvent.downloadFile "mainframe_key.pem" (keyPath d)
  , PrepEvent.chmodFile (keyPath d) 0o600
  , PrepEvent.writeInventoryFile (d ++ "/inventory.yml") (keyPath d)
  , PrepEvent.execProcess (d ++ "/inventory.yml") d ]

/-- Steps that make use of the private-key material: writing the inventory
(it embeds the key path as ansible_ssh_private_key_file) and executing the
playbook against that inventory. -/
def usesKeyMaterial : PrepEvent → Bool
  | .writeInventoryFile _ _ => true
  | .execProcess _ _ => true
  | _ => false

/-! ## Claim C4 -/

/-- Claim C4: in every execution that fetches the private key, the chmod to
mode 0o600 of the local key file is the event immediately following the key
download, and no step before it uses the key material, so the permission
restriction happens before the key path is used by any subsequent step. -/
theorem C4_key_chmod_before_use (d playbookName jclFile s3Prefix : String) :
    ∃ pre post : List PrepEvent,
      runJclPrepTrace d playbookName jclFile s3Prefix
        = pre ++ PrepEvent.downloadFile "mainframe_key.pem" (keyPath d)
            :: PrepEvent.chmodFile (keyPath d) 0o600 :: post
      ∧ pre.all (fun e => !(usesKeyMaterial e)) = true
      ∧ post.all usesKeyMaterial = true := by
  refine ⟨[ PrepEvent.downloadFile
              (degradedJoinKey s3Prefix ("ansible/playbooks/" ++ playbookName))
              (d ++ "/" ++ playbookName)
          , PrepEvent.downloadFile
              (degradedJoinKey s3Prefix ("ansible/jcl/" ++ jclFile))
              (d ++ "/" ++ jclFile) ],
         [ PrepEvent.writeInventoryFile (d ++ "/inventory.yml") (keyPath d)
         , PrepEvent.execProcess (d ++ "/inventory.yml") d ],
         rfl, rfl, rfl⟩

/-! ## Job ledger (automation-gateway/src/main.py) -/

/-- Lifecycle states of a JobRecord. -/
inductive JobStatus where
  | pending
  | running
  | success
  | failed
  | timeout
  deriving DecidableEq

/-- Terminal states: SUCCESS, FAILED, TIMEOUT. -/
def isTerminal : JobStatus → Bool
  | .success => true
  | .failed => true
  | .timeout => true
  | _ => false

/-- A job record of the in-memory ledger (fields of the dictionary built in
create_job, lines 214 to 222). Timestamps are held on a discrete clock. -/
structure JobRecord where
  jobId : String
  action : String
  target : String
  status : JobStatus
  startedAt : Option Nat
  finishedAt : Option Nat
  errMsg : Option String

/-- Embeds create_job lines 213 to 223: a fresh record enters the ledger in
PENDING with no timestamps and no error. -/
def createJobRecord (jobId action target : String) : JobRecord :=
  { jobId := jobId
    action := action
    target := target
    status := .pending
    startedAt := none
    finishedAt := none
    errMsg := none }

/-- Status transitions performed by the gateway code on a single job: the
effective run_job (lines 230 to 246) moves PENDING to RUNNING at entry, and
RUNNING to SUCCESS or, on the simulated failure, to FAILED. No other status
assignment exists in the module. -/
inductive JobStep : JobStatus → JobStatus → Prop where
  | start : JobStep .pending .running
  | finishSuccess : JobStep .running .success
  | finishFailed : JobStep .running .failed

/-! ## Claim C5 -/

/-- Claim C5: every JobRecord lifecycle follows PENDING to RUNNING to
exactly one terminal state: no transition leaves a terminal state, the only
transition out of PENDING enters RUNNING (so no transition skips RUNNING),
and any chain of ledger transitions starting at PENDING is a prefix of
PENDING, RUNNING, terminal. -/
theorem C5_lifecycle (l : List JobStatus)
    (h : List.Chain JobStep JobStatus.pending l) :
    (∀ s t, JobStep s t → isTerminal s = false)
    ∧ (∀ t, JobStep JobStatus.pending t → t = JobStatus.running)
    ∧ (∀ s t, JobStep s t → isTerminal t = true → s = JobStatus.running)
    ∧ (l = [] ∨ l = [JobStatus.running]
        ∨ ∃ t, isTerminal t = true ∧ l = [JobStatus.running, t]) := by
  refine ⟨?_, ?_, ?_, ?_⟩
  · intro s t hst
    cases hst <;> rfl
  · intro t hst
    cases hst
    rfl
  · intro s t hst hterm
    cases hst
    · exact absurd hterm (by decide)
    · rfl
    · rfl
  · cases h with
    | nil => exact Or.inl rfl
    | cons hstep hrest =>
      cases hstep
      cases hrest with
      | nil => exact Or.inr (Or.inl rfl)
      | cons hstep2 hrest2 =>
        cases hstep2 with
        | finishSuccess =>
            cases hrest2 with
            | nil => exact Or.inr (Or.inr ⟨JobStatus.success, rfl, rfl⟩)
            | cons hstep3 _ => cases hstep3
        | finishFailed =>
            cases hrest2 with
            | nil => exact Or.inr (Or.inr ⟨JobStatus.failed, rfl, rfl⟩)
            | cons hstep3 _ => cases hstep3

/-- Witness for C5 on the concrete chain PENDING, RUNNING, SUCCESS. -/
theorem C5_lifecycle_witness :
    [JobStatus.running, JobStatus.success] = []
    ∨ [JobStatus.running, JobStatus.success] = [JobStatus.running]
    ∨ ∃ t, isTerminal t = true
        ∧ [JobStatus.running, JobStatus.success] = [JobStatus.running, t] :=
  (C5_lifecycle [JobStatus.running, JobStatus.success]
    (List.Chain.cons JobStep.start
      (List.Chain.cons JobStep.finishSuccess List.Chain.nil))).2.2.2

/-! ## Claim C6 -/

/-- Record snapshots observable at the await boundaries of the effective
run_job (lines 230 to 246): after entry (RUNNING with started_at set,
reached before the asyncio.sleep suspension) and after completion (terminal
with finished_at set in the finally block; on the simulated failure the
status is FAILED with the error text recorded). -/
def runJobSnapshots (r : JobRecord) (t0 t1 : Nat) (fail : Bool) :
    List JobRecord :=
  let r1 := { r with status := .running, startedAt := some t0 }
  let r2 :=
    if fail then
      { r1 with status := .failed
                errMsg := some "Simulated failure"
                finishedAt := some t1 }
    else
      { r1 with status := .success, finishedAt := some t1 }
  [r1, r2]

/-- Timestamp invariant of a job record: finished_at is set exactly on the
terminal states, started_at exactly on RUNNING and the terminal states, and
when both are set they are ordered. -/
def recordTimestampsInv (r : JobRecord) : Prop :=
  r.finishedAt.isSome = isTerminal r.status
  ∧ r.startedAt.isSome = (r.status == JobStatus.running || isTerminal r.status)
  ∧ ∀ a b : Nat, r.startedAt = some a → r.finishedAt = some b → a ≤ b

/-- Claim C6: for any job record at any observable point of its lifecycle,
finished_at is set iff the state is terminal, started_at is set iff the
state is RUNNING or terminal, both timestamps present implies started_at is
not after finished_at, and the run ends in exactly one terminal state. -/
theorem C6_record_timestamps (jobId action target : String) (t0 t1 : Nat)
    (hle : t0 ≤ t1) (fail : Bool) :
    recordTimestampsInv (createJobRecord jobId action target)
    ∧ (∀ r ∈ runJobSnapshots (createJobRecord jobId action target) t0 t1 fail,
        recordTimestampsInv r)
    ∧ (∃ t, isTerminal t = true
        ∧ (runJobSnapshots (createJobRecord jobId action target) t0 t1 fail).map
            JobRecord.status = [JobStatus.running, t]) := by
  refine ⟨⟨rfl, rfl, ?_⟩, ?_, ?_⟩
  · intro a b ha _
    cases ha
  · intro r hr
    cases fail with
    | false =>
        simp only [runJobSnapshots, List.mem_cons, List.not_mem_nil, or_false,
          if_neg (Bool.false_ne_true)] at hr
        rcases hr with h1 | h2
        · subst h1
          exact ⟨rfl, rfl, fun a b _ hb => by cases hb⟩
        · subst h2
          refine ⟨rfl, rfl, fun a b ha hb => ?_⟩
          cases ha
          cases hb
          exact hle
    | true =>
        simp only [runJobSnapshots, List.mem_cons, List.not_mem_nil, or_false,
          if_pos rfl] at hr
        rcases hr with h1 | h2
        · subst h1
          exact ⟨rfl, rfl, fun a b _ hb => by cases hb⟩
        · subst h2
          refine ⟨rfl, rfl, fun a b ha hb => ?_⟩
          cases ha
          cases hb
          exact hle
  · cases fail with
    | false => exact ⟨JobStatus.success, rfl, rfl⟩
    | true => exact ⟨JobStatus.failed, rfl, rfl⟩

/-- Witness for C6 on a concrete successful run with times 1 and 2. -/
theorem C6_record_timestamps_witness :
    ∃ t, isTerminal t = true
      ∧ (runJobSnapshots (createJobRecord "j" "deploy" "mainframe1") 1 2
          false).map JobRecord.status = [JobStatus.running, t] :=
  (C6_record_timestamps "j" "deploy" "mainframe1" 1 2 (by decide) false).2.2

/-! ## Metrics (automation-gateway/src/main.py lines 113 to 162) -/

/-- Prometheus state relevant to the gateway: the jobs counter by action and
status labels, the observed durations of the histogram with their action
label, and the queue-depth gauge. -/
structure GatewayMetrics where
  jobsTotal : String → String → Nat
  durationObs : List (String × Nat)
  queueDepth : Int

/-- Fresh metric state of a newly started process: all counters zero, no
observations, gauge at zero. -/
def freshMetrics : GatewayMetrics :=
  { jobsTotal := fun _ _ => 0, durationObs := [], queueDepth := 0 }

/-- Increment of a labelled counter. -/
def bumpCounter (f : String → String → Nat) (action status : String) :
    String → String → Nat :=
  fun a s => if a = action ∧ s = status then f a s + 1 else f a s

/-- Metric effect of the first, instrumented run_job definition (lines 132
to 162): gauge incremented at entry, outcome counter bumped at the terminal
assignment, duration observed and gauge decremented in the finally block. -/
def runJobInstrumentedMetrics (action : String) (fail : Bool) (dur : Nat)
    (m : GatewayMetrics) : GatewayMetrics :=
  let m1 := { m with queueDepth := m.queueDepth + 1 }
  let m2 := { m1 with
    jobsTotal := bumpCounter m1.jobsTotal action
      (if fail then "FAILED" else "SUCCESS") }
  { m2 with
    durationObs := m2.durationObs ++ [(action, dur)]
    queueDepth := m2.queueDepth - 1 }

/-- Metric effect of the second run_job definition (lines 230 to 246): it
contains no metric operation at all. -/
def runJobPlainMetrics (m : GatewayMetrics) : GatewayMetrics := m

/-- The module defines run_job twice; the later definition (lines 230 to
246) rebinds the name, so the run_job scheduled by create_job is the plain,
uninstrumented one. -/
def effectiveRunJobMetrics : GatewayMetrics → GatewayMetrics :=
  runJobPlainMetrics

/-! ## Claim C7 -/

/-- Claim C7 fails on the code: the effective run_job (the second
definition, which shadows the instrumented first one) performs no metric
update, so after one successful execution from a fresh process the SUCCESS
counter is still zero, no duration was observed and the gauge never moved;
the shadowed instrumented definition would have incremented the counter to
one, observed one duration and returned the gauge to zero. -/
theorem C7_metrics_never_recorded :
    (effectiveRunJobMetrics freshMetrics).jobsTotal "deploy" "SUCCESS" = 0
    ∧ (effectiveRunJobMetrics freshMetrics).durationObs = []
    ∧ (effectiveRunJobMetrics freshMetrics).queueDepth = 0
    ∧ (runJobInstrumentedMetrics "deploy" false 2
        freshMetrics).jobsTotal "deploy" "SUCCESS" = 1
    ∧ (runJobInstrumentedMetrics "deploy" false 2 freshMetrics).durationObs
        = [("deploy", 2)]
    ∧ (runJobInstrumentedMetrics "deploy" false 2 freshMetrics).queueDepth
        = 0 := by
  refine ⟨rfl, rfl, rfl, ?_, rfl, rfl⟩
  simp [runJobInstrumentedMetrics, bumpCounter, freshMetrics]

/-! ## Substring facts used for the response-leakage claim -/

/-- A pattern is a prefix of itself followed by anything. -/
theorem isPrefixOf_self_append (l rest : List Char) :
    l.isPrefixOf (l ++ rest) = true := by
  induction l with
  | nil => simp [List.isPrefixOf]
  | cons c cs ih => simp [List.isPrefixOf, ih]

/-- A pattern occurs in itself followed by anything. -/
theorem auxContains_self_append (pat rest : List Char) :
    auxContains pat (pat ++ rest) = true := by
  cases pat with
  | nil =>
    cases rest with
    | nil => rfl
    | cons c cs => rfl
  | cons c cs =>
    simp [auxContains, isPrefixOf_self_append]

/-- The first factor of a triple concatenation occurs in the whole. -/
theorem strContains_prefix (a b c : String) : strContains (a ++ b ++ c) a = true := by
  show auxContains a.data ((a ++ b ++ c).data) = true
  rw [String.data_append, String.data_append, List.append_assoc]
  exact auxContains_self_append a.data _

/-! ## HTTP response bodies of main.py run_jcl (lines 304 to 332) -/

/-- JSON-serialisable values appearing in the response dictionaries. -/
inductive RespV where
  | str (s : String)
  | num (n : Int)
  | bool (b : Bool)
  | strList (xs : List String)
  deriving DecidableEq

/-- Local path of the downloaded JCL file inside the scratch directory
(main.py lines 250 and 261). -/
def jclLocalPath (tmpdir jclFile : String) : String :=
  tmpdir ++ "/jcl/" ++ jclFile

/-- Success response body of main.py run_jcl (lines 304 to 319), keyed
field list in source order. -/
def mainSuccessResponse (jobId playbookName inventoryName jclFile tmpdir : String)
    (varsLoaded : List String) (varsCount : Nat) (execRes : ExecResult) :
    List (String × RespV) :=
  [ ("job_id", RespV.str jobId)
  , ("status", RespV.str "completed")
  , ("playbook", RespV.str playbookName)
  , ("inventory", RespV.str inventoryName)
  , ("jcl_file", RespV.str jclFile)
  , ("jcl_local_path", RespV.str (jclLocalPath tmpdir jclFile))
  , ("s3_bucket", RespV.str "ansible-playbook-s3-dae")
  , ("variables_loaded", RespV.strList varsLoaded)
  , ("variables_count", RespV.num varsCount)
  , ("success", RespV.bool execRes.success)
  , ("exit_code", RespV.num execRes.exitCode)
  , ("execution_id", RespV.str execRes.executionId)
  , ("stdout", RespV.str execRes.stdout)
  , ("stderr", RespV.str execRes.stderr) ]

/-- Generic 500 response body of main.py run_jcl (lines 325 to 332): the
raw exception text under the error key. -/
def mainErrorResponse (jobId errText : String) : List (String × RespV) :=
  [ ("job_id", RespV.str jobId)
  , ("status", RespV.str "failed")
  , ("error", RespV.str errText) ]

/-- Occurrence of a needle anywhere in the string-valued fields of a
response body. -/
def respMentions (resp : List (String × RespV)) (needle : String) : Bool :=
  resp.any fun kv =>
    match kv.2 with
    | RespV.str s => strContains s needle
    | RespV.strList xs => xs.any (fun s => strContains s needle)
    | _ => false

/-! ## Claim C8 -/

/-- Counterexample to claim C8 as stated: the success response of main.py
run_jcl for a concrete request with scratch directory /tmp/tmpabc123
mentions that internal scratch directory (its jcl_local_path field is
/tmp/tmpabc123/jcl/GENER3), so a response body does contain an internal
file-system path. -/
theorem C8_leak_counterexample :
    respMentions
      (mainSuccessResponse "j1" "ansible/create_hamlet_jcl.yml"
        "inventory.yml" "GENER3" "/tmp/tmpabc123" [] 1
        { executionId := "e1", success := true, exitCode := 0,
          stdout := "", stderr := "" })
      "/tmp/tmpabc123" = true := by
  decide

/-- Claim C8 amended: the success response of main.py run_jcl always
contains the internal scratch-directory path of the downloaded JCL file in
its jcl_local_path field, so success bodies are not free of internal
file-system paths; the generic 500 error body carries only the fields
job_id, status and error, where error is the raw exception text, and the
timeout error of both services is a fixed human-readable message. -/
theorem C8_response_contents_amended (jobId playbookName inventoryName jclFile
    tmpdir errText pOut pErr : String) (varsLoaded : List String)
    (varsCount : Nat) (execRes : ExecResult) (res : ParseOutcome) :
    (mainSuccessResponse jobId playbookName inventoryName jclFile tmpdir
        varsLoaded varsCount execRes).lookup "jcl_local_path"
      = some (RespV.str (jclLocalPath tmpdir jclFile))
    ∧ strContains (jclLocalPath tmpdir jclFile) tmpdir = true
    ∧ (mainErrorResponse jobId errText).map Prod.fst
      = ["job_id", "status", "error"]
    ∧ runJclDegraded jobId playbookName jclFile
        (ProcResult.timedOut pOut pErr) res
      = Except.error { status := 408, detail := "Playbook timed out" } := by
  refine ⟨?_, strContains_prefix tmpdir "/jcl/" jclFile, rfl, rfl⟩
  simp [mainSuccessResponse, List.lookup]

/-! ## Variable merge of main.py run_jcl (lines 288 to 292) -/

/-- Right-biased dictionary merge: the Python double-splat of two dicts,
where the second operand wins on shared keys. -/
def pyDictMerge {V : Type} (a b : String → Option V) : String → Option V :=
  fun k =>
    match b k with
    | some v => some v
    | none => a k

/-- Single-key dictionary assignment. -/
def dictSet {V : Type} (d : String → Option V) (key : String) (v : V) :
    String → Option V :=
  fun k => if k = key then some v else d k

/-- Embeds main.py lines 289 to 292: merged_vars is var.yml data splatted
with extra_vars (extra_vars winning), then jcl_file is assigned the local
downloaded JCL path. -/
def mergedRunVars {V : Type} (varData extraVars : String → Option V)
    (jclLocal : V) : String → Option V :=
  dictSet (pyDictMerge varData extraVars) "jcl_file" jclLocal

/-! ## Claim C9 -/

/-- Claim C9: in the run-jcl variable merge, for every key other than
jcl_file that is present in both the var.yml data and the caller-supplied
extra_vars, the extra_vars value wins; and the merged variable jcl_file
always equals the local downloaded JCL path, overriding any caller-supplied
or var.yml value for that key. -/
theorem C9_merge_precedence {V : Type} (varData extraVars : String → Option V)
    (jclLocal : V) (k : String) (hk : k ≠ "jcl_file") (v w : V)
    (hv : varData k = some v) (hw : extraVars k = some w) :
    mergedRunVars varData extraVars jclLocal k = some w
    ∧ (∀ extraVal : V, extraVars "jcl_file" = some extraVal →
        mergedRunVars varData extraVars jclLocal "jcl_file" = some jclLocal)
    ∧ mergedRunVars varData extraVars jclLocal "jcl_file" = some jclLocal := by
  refine ⟨?_, fun _ _ => ?_, ?_⟩
  · simp [mergedRunVars, dictSet, pyDictMerge, hk, hw]
  · simp [mergedRunVars, dictSet]
  · simp [mergedRunVars, dictSet]

/-- Witness for C9 on concrete dictionaries sharing the key a. -/
theorem C9_merge_precedence_witness :
    mergedRunVars (fun k => if k = "a" then some "v1" else none)
        (fun k => if k = "a" then some "v2" else none) "/tmp/d/jcl/G" "a"
      = some "v2"
    ∧ mergedRunVars (fun k => if k = "a" then some "v1" else none)
        (fun k => if k = "a" then some "v2" else none) "/tmp/d/jcl/G"
        "jcl_file"
      = some "/tmp/d/jcl/G" := by
  have h := C9_merge_precedence
    (fun k => if k = "a" then some "v1" else none)
    (fun k => if k = "a" then some "v2" else none)
    "/tmp/d/jcl/G" "a" (by decide) "v1" "v2" (by simp) (by simp)
  exact ⟨h.1, h.2.2⟩

/-! ## Jinja2 variable rendering (main.py lines 92 to 142) -/

/-- YAML values loaded from var.yml. -/
inductive YVal where
  | str (s : String)
  | num (n : Int)
  | bool (b : Bool)
  | null
  | dict (kvs : List (String × YVal))
  | list (xs : List YVal)

/-- Test of main.py line 108: the string contains a Jinja2 expression or
statement marker. -/
def hasTemplateMarker (s : String) : Bool :=
  strContains s "\x7b\x7b" || strContains s "\x7b%"

mutual

/-- Embeds process_value of main.py lines 103 to 122. The renderer is the
Jinja2 template.render call, abstracted as a function that either returns
the rendered string or raises (none). Strings with a template marker are
rendered, any rendering exception returns the original string, strings
without markers and non-string, non-dict, non-list values pass through
unchanged, and dicts and lists are processed recursively. -/
def processValue (render : String → Option String) : YVal → YVal
  | .str s =>
      if hasTemplateMarker s then
        match render s with
        | some r => .str r
        | none => .str s
      else .str s
  | .dict kvs => .dict (processKVs render kvs)
  | .list xs => .list (processItems render xs)
  | .num n => .num n
  | .bool b => .bool b
  | .null => .null

/-- Recursive processing of dictionary entries (main.py line 118). -/
def processKVs (render : String → Option String) :
    List (String × YVal) → List (String × YVal)
  | [] => []
  | (k, v) :: rest => (k, processValue render v) :: processKVs render rest

/-- Recursive processing of list items (main.py line 120). -/
def processItems (render : String → Option String) : List YVal → List YVal
  | [] => []
  | v :: rest => processValue render v :: processItems render rest
end

/-! ## Claim C10 -/

/-- Claim C10: per-value rendering is total: a string whose rendering
raises is returned unchanged instead of propagating the error, a string
without template markers is returned unchanged, and non-string, non-dict,
non-list values are always returned unchanged. -/
theorem C10_render_total (render : String → Option String) (s t : String)
    (n : Int) (b : Bool) (hs : hasTemplateMarker s = true)
    (hr : render s = none) (ht : hasTemplateMarker t = false) :
    processValue render (YVal.str s) = YVal.str s
    ∧ processValue render (YVal.str t) = YVal.str t
    ∧ processValue render (YVal.num n) = YVal.num n
    ∧ processValue render (YVal.bool b) = YVal.bool b
    ∧ processValue render YVal.null = YVal.null := by
  refine ⟨?_, ?_, ?_, ?_, ?_⟩
  · simp [processValue, hs, hr]
  · simp [processValue, ht]
  · simp [processValue]
  · simp [processValue]
  · simp [processValue]

/-- Witness for C10 on a failing renderer, a marker string and a plain
string. -/
theorem C10_render_total_witness :
    processValue (fun _ => none) (YVal.str "x \x7b\x7b bad \x7d\x7d")
      = YVal.str "x \x7b\x7b bad \x7d\x7d"
    ∧ processValue (fun _ => none) (YVal.str "plain")
      = YVal.str "plain" := by
  have h := C10_render_total (fun _ => none) "x \x7b\x7b bad \x7d\x7d"
    "plain" 0 false (by decide) rfl (by decide)
  exact ⟨h.1, h.2.1⟩

end K8sMon
